import Mathlib

/-
Verification of the client-side script of the repository (two near-identical
files, `src/js/main.js` and `src/scripts/main.js`).  The script is shallowly
embedded: DOM state touched by each handler is modelled as an explicit record,
and each event handler becomes a pure function on that record.  JavaScript
strings are modelled as `List Char`.
-/

set_option maxRecDepth 4096

/-- The character class matched by JavaScript's `\s` (the `WhiteSpace` and
`LineTerminator` productions): TAB, LF, VT, FF, CR, SP, NBSP, OGHAM SPACE
MARK, the U+2000..U+200A range, LS, PS, NNBSP, MMSP, IDEOGRAPHIC SPACE and
ZWNBSP.  This is also exactly the set of characters removed from both ends by
`String.prototype.trim`. -/
def isJsWhitespace (c : Char) : Bool :=
  c.val == 0x9 || c.val == 0xA || c.val == 0xB || c.val == 0xC || c.val == 0xD ||
  c.val == 0x20 || c.val == 0xA0 || c.val == 0x1680 ||
  (0x2000 ≤ c.val && c.val ≤ 0x200A) ||
  c.val == 0x2028 || c.val == 0x2029 || c.val == 0x202F || c.val == 0x205F ||
  c.val == 0x3000 || c.val == 0xFEFF

/-- JavaScript's `String.prototype.trim` (used as `emailInput.value.trim()` in
both files): remove `\s`-class characters from both ends of the string. -/
def jsTrim (s : List Char) : List Char :=
  ((s.dropWhile isJsWhitespace).reverse.dropWhile isJsWhitespace).reverse

/-- The character class `[^\s@]` of the email regex in both files: any
character that is neither JavaScript whitespace nor an at-sign. -/
def isEmailChar (c : Char) : Bool :=
  !(isJsWhitespace c) && !(c == '@')

/- ---------------------------------------------------------------------
Mobile menu (identical in both files, lines 17-18 and 70-117):
state is the flag `isMenuOpen`, the presence of the class "active" on the
toggle control `navToggle` and on the container `navMobile`, and
`document.body.style.overflow`.  The model assumes the toggle and menu
elements are present (otherwise `setupMobileMenu` wires nothing and every
operation below is unreachable).
--------------------------------------------------------------------- -/

/-- DOM state touched by the mobile-menu handlers. -/
structure MenuState where
  isMenuOpen : Bool
  toggleActive : Bool
  menuActive : Bool
  bodyOverflow : List Char
deriving DecidableEq

/-- Page-load state: the flag is initialised to `false` (line 18) and no
"active" class is present. -/
def initialMenuState : MenuState :=
  ⟨false, false, false, []⟩

/-- `openMenu` (lines 105-110): set the flag, add "active" to both elements,
freeze body scrolling. -/
def openMenu (st : MenuState) : MenuState :=
  { st with
      isMenuOpen := true
      toggleActive := true
      menuActive := true
      bodyOverflow := "hidden".data }

/-- `closeMenu` (lines 112-117): clear the flag, remove "active" from both
elements, restore body scrolling. -/
def closeMenu (st : MenuState) : MenuState :=
  { st with
      isMenuOpen := false
      toggleActive := false
      menuActive := false
      bodyOverflow := [] }

/-- `toggleMenu` (lines 97-103). -/
def toggleMenu (st : MenuState) : MenuState :=
  if st.isMenuOpen then closeMenu st else openMenu st

/-- The click handler installed on every mobile-menu link (lines 76-80):
unconditionally `closeMenu`. -/
def mobileLinkClick (st : MenuState) : MenuState :=
  closeMenu st

/-- The key of the keydown events the document-level handler reacts to. -/
def escapeKey : List Char :=
  "Escape".data

/-- The document keydown handler (lines 83-87): close when the key is
"Escape" and the menu is open. -/
def keydownHandler (key : List Char) (st : MenuState) : MenuState :=
  if key = escapeKey ∧ st.isMenuOpen = true then closeMenu st else st

/-- The window resize handler (lines 90-94): close when `window.innerWidth`
is at least 768 and the menu is open. -/
def resizeHandler (innerWidth : Nat) (st : MenuState) : MenuState :=
  if 768 ≤ innerWidth ∧ st.isMenuOpen = true then closeMenu st else st

/-- The invariant of claim C5: the flag equals the presence of the "active"
marker on both the toggle control and the menu container. -/
def menuInv (st : MenuState) : Prop :=
  st.isMenuOpen = (st.toggleActive && st.menuActive)

instance (st : MenuState) : Decidable (menuInv st) := by
  unfold menuInv; infer_instance

/- ---------------------------------------------------------------------
Reveal animations (identical in both files, lines 150-183): per element the
observer callback adds the class "visible" and unobserves the element when
an entry reports it intersecting.  Per-element state is the presence of the
"visible" class and whether the element is still observed.
--------------------------------------------------------------------- -/

/-- Per-element state of the reveal animator. -/
structure RevealState where
  visible : Bool
  observed : Bool
deriving DecidableEq

/-- State of a reveal-flagged element right after `observer.observe(el)`
(lines 180-182): not yet visible, observed. -/
def revealInit : RevealState :=
  ⟨false, true⟩

/-- One intersection event delivered for the element (lines 170-178): the
callback runs only while the element is observed, and when the entry is
intersecting it adds "visible" and unobserves the element. -/
def revealStep (st : RevealState) (isIntersecting : Bool) : RevealState :=
  if st.observed && isIntersecting then ⟨true, false⟩ else st

/-- A whole sequence of intersection events for one element. -/
def revealRun (st : RevealState) (events : List Bool) : RevealState :=
  events.foldl revealStep st

/- ---------------------------------------------------------------------
Signup form.  DOM state touched by the submit handler: the email input's
value, the submit button's label and disabled flag, and the message area's
text and class.  Each variant's submit handler is split into its synchronous
part (returning the new state together with the pending submission it
started, if any) and the continuation that runs when the submission
completes.  The 5-second auto-clear timer of `showMessage` is not part of
any claim and is not modelled.
--------------------------------------------------------------------- -/

/-- DOM state touched by the signup-form code. -/
structure FormState where
  inputValue : List Char
  buttonLabel : List Char
  buttonDisabled : Bool
  messageText : List Char
  messageClass : List Char
deriving DecidableEq

/-- `showMessage` (identical in both files): set the message area's text and
set its class to "signup-message " followed by the given type. -/
def showMessage (st : FormState) (message ty : List Char) : FormState :=
  { st with
      messageText := message
      messageClass := "signup-message ".data ++ ty }

namespace Js

/-- `isValidEmail` of `src/js/main.js` (lines 222-225): the test of the
anchored regex `^[^\s@]+@[^\s@]+\.[^\s@]+$`.  Since `[^\s@]` cannot match
the at-sign, the local part is forced to be the longest `[^\s@]` prefix;
the string matches iff that prefix is nonempty, is followed by an at-sign,
everything after the at-sign is in `[^\s@]`, and a dot occurs strictly
inside the part after the at-sign (at least one `[^\s@]` character on each
side of it).  The equivalence with the regex shape is proved below
(`Js.isValidEmail_iff_shape`). -/
def isValidEmail (s : List Char) : Bool :=
  match List.dropWhile isEmailChar s with
  | c :: t =>
      (c == '@') && !(List.takeWhile isEmailChar s).isEmpty
        && t.all isEmailChar && decide ('.' ∈ (t.drop 1).dropLast)
  | [] => false

/-- Error message of lines 199-202 of `src/js/main.js`. -/
def invalidMessage : List Char :=
  "Please enter a valid email address.".data

/-- Success message of line 214 of `src/js/main.js`. -/
def successMessage : List Char :=
  "Thanks! We\x27ll be in touch soon.".data

/-- Pending button label of line 209 of `src/js/main.js`. -/
def sendingLabel : List Char :=
  "Sending...".data

/-- Synchronous part of the submit listener of `src/js/main.js`
(lines 192-219): trim the input, on invalid input show the error message and
return without starting anything; on valid input save the button label,
switch the button to the pending label and disable it, and start the
simulated submission (the returned value is the saved original label the
timeout callback closes over). -/
def submitHandler (st : FormState) : FormState × Option (List Char) :=
  let email := jsTrim st.inputValue
  if !(isValidEmail email) then
    (showMessage st invalidMessage ("error".data), none)
  else
    ({ st with buttonLabel := sendingLabel, buttonDisabled := true },
     some st.buttonLabel)

/-- The timeout callback of lines 213-218 of `src/js/main.js`: show the
success message, clear the input, restore the saved label, re-enable the
button. -/
def submitComplete (st : FormState) (originalText : List Char) : FormState :=
  let st1 := showMessage st successMessage ("success".data)
  { st1 with inputValue := [], buttonLabel := originalText, buttonDisabled := false }

end Js

namespace Scripts

/-- `isValidEmail` of `src/scripts/main.js` (lines 242-245), the same test
of the regex `^[^\s@]+@[^\s@]+\.[^\s@]+$`, embedded exactly as in the other
file. -/
def isValidEmail (s : List Char) : Bool :=
  match List.dropWhile isEmailChar s with
  | c :: t =>
      (c == '@') && !(List.takeWhile isEmailChar s).isEmpty
        && t.all isEmailChar && decide ('.' ∈ (t.drop 1).dropLast)
  | [] => false

/-- The fixed Formspree endpoint of line 192 of `src/scripts/main.js`. -/
def endpoint : List Char :=
  "https://formspree.io/f/xeegzwzw".data

/-- An outbound `fetch` request as issued on lines 214-221 of
`src/scripts/main.js`: the target URL and the value placed in the `email`
field of the JSON body `JSON.stringify({ email: email })`. -/
structure FetchRequest where
  url : List Char
  email : List Char
deriving DecidableEq

/-- Error message of lines 201-204 of `src/scripts/main.js`. -/
def invalidMessage : List Char :=
  "Please enter a valid email address.".data

/-- Success message of line 229 of `src/scripts/main.js`. -/
def successMessage : List Char :=
  "You\x27re on the list!".data

/-- Failure message of line 233 of `src/scripts/main.js`. -/
def failureMessage : List Char :=
  "Something went wrong. Please try again.".data

/-- Pending button label of line 210 of `src/scripts/main.js`. -/
def signingUpLabel : List Char :=
  "Signing up...".data

/-- Synchronous part of the submit listener of `src/scripts/main.js`
(lines 194-221): trim the input, on invalid input show the error message and
return without issuing a request; on valid input save the button label,
switch the button to the pending label, disable it, and issue the POST with
the trimmed email in the body (returned together with the saved label the
promise callbacks close over). -/
def submitHandler (st : FormState) : FormState × Option (FetchRequest × List Char) :=
  let email := jsTrim st.inputValue
  if !(isValidEmail email) then
    (showMessage st invalidMessage ("error".data), none)
  else
    ({ st with buttonLabel := signingUpLabel, buttonDisabled := true },
     some (⟨endpoint, email⟩, st.buttonLabel))

/-- The promise continuation of lines 222-238 of `src/scripts/main.js`.
`success` is true when the response was OK and its JSON body parsed (the
two `then` steps); it is false when the fetch rejected, the status was not
OK, or the body failed to parse (the `catch` step).  On success: show the
success message and clear the input; on failure: show the failure message.
The `finally` step then restores the saved label and re-enables the
button in both cases. -/
def submitComplete (st : FormState) (originalText : List Char) (success : Bool) :
    FormState :=
  let st1 :=
    if success then
      { showMessage st successMessage ("success".data) with inputValue := [] }
    else
      showMessage st failureMessage ("error".data)
  { st1 with buttonLabel := originalText, buttonDisabled := false }

end Scripts

/-- Modelled from the spec: the acceptance shape claim C1 ascribes to the
validation, in the spec's words — the string contains no whitespace, at
least one at-sign, and at least one dot after the at-sign, with nonempty
local part, domain and top-level segment.  (The code itself is the regex
`^[^\s@]+@[^\s@]+\.[^\s@]+$`, embedded as `Js.isValidEmail` above; this
predicate exists only to be compared with it.) -/
def specEmailShape (s : List Char) : Prop :=
  (∀ ch ∈ s, isJsWhitespace ch = false) ∧
  ∃ a b c : List Char,
    a ≠ [] ∧ b ≠ [] ∧ c ≠ [] ∧ s = a ++ '@' :: (b ++ '.' :: c)

/-- A concrete state with a valid email typed into the field, used to
instantiate theorems with hypotheses. -/
def exampleValidState : FormState :=
  ⟨"user@example.com".data, "Notify Me".data, false, [], []⟩

/-- A concrete state with an invalid email typed into the field. -/
def exampleInvalidState : FormState :=
  ⟨"not-an-email".data, "Notify Me".data, false, [], []⟩

/-- The same form state with the email field already trimmed; used to state
that submission handling only depends on the trimmed value. -/
def withTrimmedInput (st : FormState) : FormState :=
  { st with inputValue := jsTrim st.inputValue }

/- ---------------------------------------------------------------------
Theorems.
--------------------------------------------------------------------- -/

/-- Dropping a prefix of `p`-characters twice is the same as dropping it
once. -/
theorem dropWhile_dropWhile {α : Type} (p : α → Bool) (l : List α) :
    (l.dropWhile p).dropWhile p = l.dropWhile p := by
  induction l with
  | nil => rfl
  | cons a t ih =>
      cases hpa : p a with
      | true => simpa [List.dropWhile_cons, hpa] using ih
      | false => simp [List.dropWhile_cons, hpa]

/-- If a list is unchanged by `dropWhile`, so is any of its prefixes
written as the left part of an append. -/
theorem dropWhile_fix_of_append {α : Type} (p : α → Bool) (x y : List α)
    (h : List.dropWhile p (x ++ y) = x ++ y) : List.dropWhile p x = x := by
  cases x with
  | nil => rfl
  | cons a t =>
      have ha : p a = false := by
        cases hpa : p a with
        | false => rfl
        | true =>
            exfalso
            rw [List.cons_append, List.dropWhile_cons, hpa] at h
            simp only [if_true] at h
            have hsuf : List.dropWhile p (t ++ y) <:+ t ++ y :=
              List.dropWhile_suffix p
            have hlen := hsuf.length_le
            rw [h] at hlen
            simp only [List.length_cons] at hlen
            omega
      simp [List.dropWhile_cons, ha]

/-- The JavaScript `trim` of the source is idempotent. -/
theorem jsTrim_idem (s : List Char) : jsTrim (jsTrim s) = jsTrim s := by
  have hu : List.dropWhile isJsWhitespace (List.dropWhile isJsWhitespace s) =
      List.dropWhile isJsWhitespace s := dropWhile_dropWhile _ _
  have hsuf : List.dropWhile isJsWhitespace (List.dropWhile isJsWhitespace s).reverse <:+
      (List.dropWhile isJsWhitespace s).reverse := List.dropWhile_suffix _
  obtain ⟨w, hw⟩ := hsuf
  have hurev : List.dropWhile isJsWhitespace s =
      (List.dropWhile isJsWhitespace (List.dropWhile isJsWhitespace s).reverse).reverse
        ++ w.reverse := by
    have h2 := congrArg List.reverse hw
    simpa [List.reverse_append] using h2.symm
  have hfixA : List.dropWhile isJsWhitespace
      (List.dropWhile isJsWhitespace (List.dropWhile isJsWhitespace s).reverse).reverse =
      (List.dropWhile isJsWhitespace (List.dropWhile isJsWhitespace s).reverse).reverse := by
    apply dropWhile_fix_of_append isJsWhitespace _ w.reverse
    rw [← hurev]
    exact hu
  have hfixC : List.dropWhile isJsWhitespace
      (List.dropWhile isJsWhitespace (List.dropWhile isJsWhitespace s).reverse) =
      List.dropWhile isJsWhitespace (List.dropWhile isJsWhitespace s).reverse :=
    dropWhile_dropWhile _ _
  unfold jsTrim
  rw [hfixA, List.reverse_reverse, hfixC]

/-- `takeWhile` stops exactly at the first failing element. -/
theorem takeWhile_append_cons {α : Type} (p : α → Bool) (a : List α) (x : α)
    (l : List α) (ha : ∀ c ∈ a, p c = true) (hx : p x = false) :
    List.takeWhile p (a ++ x :: l) = a := by
  induction a with
  | nil => simp [List.takeWhile_cons, hx]
  | cons b t ih =>
      have hb : p b = true := ha b (List.mem_cons_self b t)
      have ht : ∀ c ∈ t, p c = true := fun c hc => ha c (List.mem_cons_of_mem b hc)
      simp [List.takeWhile_cons, hb, ih ht]

/-- `dropWhile` drops exactly up to the first failing element. -/
theorem dropWhile_append_cons {α : Type} (p : α → Bool) (a : List α) (x : α)
    (l : List α) (ha : ∀ c ∈ a, p c = true) (hx : p x = false) :
    List.dropWhile p (a ++ x :: l) = x :: l := by
  induction a with
  | nil => simp [List.dropWhile_cons, hx]
  | cons b t ih =>
      have hb : p b = true := ha b (List.mem_cons_self b t)
      have ht : ∀ c ∈ t, p c = true := fun c hc => ha c (List.mem_cons_of_mem b hc)
      simp [List.dropWhile_cons, hb, ih ht]

/-- A nonempty list ends in some element. -/
theorem exists_append_singleton_of_ne_nil {α : Type} (l : List α) (h : l ≠ []) :
    ∃ t z, l = t ++ [z] := by
  cases hr : l.reverse with
  | nil => exact absurd (by simpa using congrArg List.reverse hr) h
  | cons a t => exact ⟨t.reverse, a, by simpa using congrArg List.reverse hr⟩

/-- An element of the interior of `t` (everything but the first and last
position) splits `t` with nonempty parts on both sides. -/
theorem mem_interior_split {α : Type} (x : α) (t : List α)
    (h : x ∈ (t.drop 1).dropLast) :
    ∃ b c : List α, b ≠ [] ∧ c ≠ [] ∧ t = b ++ x :: c := by
  cases t with
  | nil => simp at h
  | cons t0 t1 =>
      simp only [List.drop_succ_cons, List.drop_zero] at h
      have ht1 : t1 ≠ [] := by
        rintro rfl
        simp at h
      obtain ⟨t2, z, rfl⟩ := exists_append_singleton_of_ne_nil t1 ht1
      rw [List.dropLast_concat] at h
      obtain ⟨u, v, huv⟩ := List.append_of_mem h
      refine ⟨t0 :: u, v ++ [z], by simp, by simp, ?_⟩
      rw [huv]
      simp

/-- Conversely, an element with nonempty lists on both sides is in the
interior. -/
theorem mem_interior_of_split {α : Type} (x : α) (b c : List α)
    (hb : b ≠ []) (hc : c ≠ []) :
    x ∈ ((b ++ x :: c).drop 1).dropLast := by
  obtain ⟨b0, b', rfl⟩ := List.exists_cons_of_ne_nil hb
  obtain ⟨c', cz, rfl⟩ := exists_append_singleton_of_ne_nil c hc
  simp only [List.cons_append, List.drop_succ_cons, List.drop_zero]
  have hre : b' ++ x :: (c' ++ [cz]) = (b' ++ x :: c') ++ [cz] := by simp
  rw [hre, List.dropLast_concat]
  simp

/-- Characterisation of the embedded regex test: a string passes
`Js.isValidEmail` exactly when it decomposes as
`local ++ at-sign ++ domain ++ dot ++ tld` with all three parts nonempty
and made of `[^\s@]` characters. -/
theorem isValidEmail_iff_shape (s : List Char) :
    Js.isValidEmail s = true ↔
      ∃ a b c : List Char,
        a ≠ [] ∧ b ≠ [] ∧ c ≠ [] ∧
        (∀ ch ∈ a, isEmailChar ch = true) ∧
        (∀ ch ∈ b, isEmailChar ch = true) ∧
        (∀ ch ∈ c, isEmailChar ch = true) ∧
        s = a ++ '@' :: (b ++ '.' :: c) := by
  constructor
  · intro h
    unfold Js.isValidEmail at h
    cases hdrop : List.dropWhile isEmailChar s with
    | nil => rw [hdrop] at h; cases h
    | cons c0 t =>
        rw [hdrop] at h
        simp only [Bool.and_eq_true, beq_iff_eq, List.all_eq_true,
          decide_eq_true_eq, Bool.not_eq_true'] at h
        obtain ⟨⟨⟨hc0, hne⟩, hall⟩, hdot⟩ := h
        obtain ⟨b, c, hb, hc, ht⟩ := mem_interior_split '.' t hdot
        have hsplit := (List.takeWhile_append_dropWhile isEmailChar s).symm
        rw [hdrop, hc0, ht] at hsplit
        refine ⟨List.takeWhile isEmailChar s, b, c, ?_, hb, hc, ?_, ?_, ?_, hsplit⟩
        · simpa [List.isEmpty_iff] using hne
        · exact fun ch hch => List.mem_takeWhile_imp hch
        · intro ch hch
          exact hall ch (by rw [ht]; exact List.mem_append_left _ hch)
        · intro ch hch
          refine hall ch ?_
          rw [ht]
          exact List.mem_append_right _ (List.mem_cons_of_mem _ hch)
  · rintro ⟨a, b, c, ha, hb, hc, hae, hbe, hce, rfl⟩
    have hat : isEmailChar '@' = false := by decide
    have htake := takeWhile_append_cons isEmailChar a '@' (b ++ '.' :: c) hae hat
    have hdropw := dropWhile_append_cons isEmailChar a '@' (b ++ '.' :: c) hae hat
    have hall : (b ++ '.' :: c).all isEmailChar = true := by
      rw [List.all_eq_true]
      intro ch hch
      rcases List.mem_append.mp hch with h1 | h2
      · exact hbe ch h1
      · rcases List.mem_cons.mp h2 with rfl | h3
        · decide
        · exact hce ch h3
    have hmem : '.' ∈ (((b ++ '.' :: c).drop 1)).dropLast :=
      mem_interior_of_split '.' b c hb hc
    unfold Js.isValidEmail
    rw [hdropw, htake]
    simp only [Bool.and_eq_true, beq_iff_eq, decide_eq_true_eq, Bool.not_eq_true']
    exact ⟨⟨⟨trivial, by simpa [List.isEmpty_iff] using ha⟩, hall⟩, hmem⟩

/-- Claim C6: from the closed state, one toggle click opens the menu and a
second one closes it again; in general a double toggle restores the
menu-open flag. -/
theorem claim_C6 :
    ((toggleMenu initialMenuState).isMenuOpen = true ∧
      (toggleMenu (toggleMenu initialMenuState)).isMenuOpen = false) ∧
    (∀ st : MenuState, st.isMenuOpen = false →
      (toggleMenu st).isMenuOpen = true ∧
      (toggleMenu (toggleMenu st)).isMenuOpen = false) ∧
    (∀ st : MenuState,
      (toggleMenu (toggleMenu st)).isMenuOpen = st.isMenuOpen) := by
  refine ⟨⟨rfl, rfl⟩, ?_, ?_⟩
  · intro st h
    simp [toggleMenu, h, openMenu, closeMenu]
  · intro st
    cases h : st.isMenuOpen <;>
      simp [toggleMenu, h, openMenu, closeMenu]

/-- Claim C6, instantiated at the initial (closed) state. -/
theorem claim_C6_witness :
    (toggleMenu initialMenuState).isMenuOpen = true ∧
    (toggleMenu (toggleMenu initialMenuState)).isMenuOpen = false :=
  claim_C6.2.1 initialMenuState rfl

/-- Claim C7: a mobile-menu link click forces the closed state from any
state; an Escape keydown while the menu is open forces the closed state; a
resize observed with width at least 768 while the menu is open forces the
closed state. -/
theorem claim_C7 :
    (∀ st : MenuState, (mobileLinkClick st).isMenuOpen = false) ∧
    (∀ st : MenuState, st.isMenuOpen = true →
      (keydownHandler escapeKey st).isMenuOpen = false) ∧
    (∀ (st : MenuState) (w : Nat), st.isMenuOpen = true → 768 ≤ w →
      (resizeHandler w st).isMenuOpen = false) := by
  refine ⟨fun st => rfl, ?_, ?_⟩
  · intro st h
    simp [keydownHandler, h, closeMenu]
  · intro st w h hw
    simp [resizeHandler, h, hw, closeMenu]

/-- Claim C7, instantiated at the open state reached from page load. -/
theorem claim_C7_witness :
    (keydownHandler escapeKey (openMenu initialMenuState)).isMenuOpen = false :=
  claim_C7.2.1 (openMenu initialMenuState) rfl

/-- Claim C5: the flag-matches-markers invariant holds at page load and is
preserved by every menu operation: toggle, open, close, the link-click
handler, the keydown handler and the resize handler. -/
theorem claim_C5 :
    menuInv initialMenuState ∧
    ∀ st : MenuState, menuInv st →
      menuInv (toggleMenu st) ∧ menuInv (openMenu st) ∧ menuInv (closeMenu st) ∧
      menuInv (mobileLinkClick st) ∧
      (∀ key : List Char, menuInv (keydownHandler key st)) ∧
      (∀ w : Nat, menuInv (resizeHandler w st)) := by
  refine ⟨rfl, ?_⟩
  intro st h
  refine ⟨?_, rfl, rfl, rfl, ?_, ?_⟩
  · cases hm : st.isMenuOpen <;> simp [toggleMenu, hm, openMenu, closeMenu, menuInv]
  · intro key
    by_cases hk : key = escapeKey ∧ st.isMenuOpen = true
    · simp [keydownHandler, hk, closeMenu, menuInv]
    · simpa [keydownHandler, hk] using h
  · intro w
    by_cases hw : 768 ≤ w ∧ st.isMenuOpen = true
    · simp [resizeHandler, hw, closeMenu, menuInv]
    · simpa [resizeHandler, hw] using h

/-- Claim C5, instantiated at the initial state. -/
theorem claim_C5_witness :
    menuInv (toggleMenu initialMenuState) :=
  (claim_C5.2 initialMenuState rfl).1

/-- Claim C8: the reveal step never removes the "visible" marker (also over
whole event sequences); a step that adds the marker leaves the element
unobserved; and an unobserved element is never changed again by any event
sequence — so the marker is added at most once. -/
theorem claim_C8 :
    (∀ (st : RevealState) (b : Bool),
      st.visible = true → (revealStep st b).visible = true) ∧
    (∀ (st : RevealState) (events : List Bool),
      st.visible = true → (revealRun st events).visible = true) ∧
    (∀ (st : RevealState) (b : Bool),
      st.visible = false → (revealStep st b).visible = true →
        (revealStep st b).observed = false) ∧
    (∀ (st : RevealState) (events : List Bool),
      st.observed = false → revealRun st events = st) := by
  have hstep : ∀ (st : RevealState) (b : Bool),
      st.visible = true → (revealStep st b).visible = true := by
    intro st b h
    by_cases hc : st.observed && b
    · simp [revealStep, hc]
    · simpa [revealStep, hc] using h
  have hfrozen : ∀ (st : RevealState) (b : Bool),
      st.observed = false → revealStep st b = st := by
    intro st b h
    simp [revealStep, h]
  refine ⟨hstep, ?_, ?_, ?_⟩
  · intro st events
    induction events generalizing st with
    | nil => intro h; simpa [revealRun] using h
    | cons e rest ih =>
        intro h
        have h1 := hstep st e h
        simpa [revealRun, List.foldl_cons] using ih (revealStep st e) h1
  · intro st b h hv
    by_cases hc : st.observed && b
    · simp [revealStep, hc]
    · rw [hfrozen st b ?_] at hv
      · rw [h] at hv; cases hv
      · by_cases ho : st.observed
        · simp [ho] at hc
          simp [revealStep, ho, hc] at hv
          rw [h] at hv; cases hv
        · simpa using ho
  · intro st events h
    induction events with
    | nil => rfl
    | cons e rest ih =>
        have h1 := hfrozen st e h
        simpa [revealRun, List.foldl_cons, h1] using ih

/-- Claim C8, instantiated: an element already revealed and unobserved is
unchanged by a further burst of intersection events. -/
theorem claim_C8_witness :
    revealRun ⟨true, false⟩ [true, false, true] = ⟨true, false⟩ :=
  claim_C8.2.2.2 ⟨true, false⟩ [true, false, true] rfl

/-- Spelling out the regex character class: a character is an email
character exactly when it is neither JavaScript whitespace nor an
at-sign. -/
theorem isEmailChar_iff (ch : Char) :
    isEmailChar ch = true ↔ isJsWhitespace ch = false ∧ ch ≠ '@' := by
  simp [isEmailChar, Bool.and_eq_true, Bool.not_eq_true']

/-- Claim C1 as stated is refuted by the input "a@b@c.d": it has no
whitespace, an at-sign, a dot after the at-sign, and nonempty local part,
domain and top-level segment, yet the validation rejects it (the regex
permits no second at-sign). -/
theorem claim_C1_counterexample :
    ¬ (Js.isValidEmail (jsTrim ("a@b@c.d".data)) = true ↔
        specEmailShape ("a@b@c.d".data)) := by
  intro h
  have hshape : specEmailShape ("a@b@c.d".data) := by
    refine ⟨by decide, "a".data, "b@c".data, "d".data,
      by decide, by decide, by decide, by decide⟩
  have hfalse : Js.isValidEmail (jsTrim ("a@b@c.d".data)) = false := by decide
  rw [h.mpr hshape] at hfalse
  cases hfalse

/-- Claim C1, amended: the validation accepts a string exactly when it has
the shape local@domain.tld with nonempty local part, domain and top-level
segment, none of which contains whitespace or an at-sign — so in
particular the string carries exactly one at-sign. -/
theorem claim_C1_amended (s : List Char) :
    Js.isValidEmail s = true ↔
      ∃ a b c : List Char,
        a ≠ [] ∧ b ≠ [] ∧ c ≠ [] ∧
        (∀ ch ∈ a, isJsWhitespace ch = false ∧ ch ≠ '@') ∧
        (∀ ch ∈ b, isJsWhitespace ch = false ∧ ch ≠ '@') ∧
        (∀ ch ∈ c, isJsWhitespace ch = false ∧ ch ≠ '@') ∧
        s = a ++ '@' :: (b ++ '.' :: c) := by
  simp only [isValidEmail_iff_shape, isEmailChar_iff]

/-- Claim C9: the two files' validations are extensionally equal (their
bodies are the same regex test). -/
theorem claim_C9 (s : List Char) : Js.isValidEmail s = Scripts.isValidEmail s :=
  rfl

/-- Claim C2: on a trimmed value that passes validation, both variants'
handlers first switch the button to their pending label and disable it,
start a submission carrying the original label, and on success the
completion shows the success message, clears the input, restores the
original label and re-enables the button. -/
theorem claim_C2 (st : FormState)
    (h : Js.isValidEmail (jsTrim st.inputValue) = true) :
    ((Js.submitHandler st).1.buttonLabel = Js.sendingLabel ∧
      (Js.submitHandler st).1.buttonDisabled = true ∧
      (Js.submitHandler st).2 = some st.buttonLabel ∧
      Js.submitComplete (Js.submitHandler st).1 st.buttonLabel =
        ⟨[], st.buttonLabel, false, Js.successMessage,
          "signup-message ".data ++ "success".data⟩) ∧
    ((Scripts.submitHandler st).1.buttonLabel = Scripts.signingUpLabel ∧
      (Scripts.submitHandler st).1.buttonDisabled = true ∧
      (Scripts.submitHandler st).2 =
        some (⟨Scripts.endpoint, jsTrim st.inputValue⟩, st.buttonLabel) ∧
      Scripts.submitComplete (Scripts.submitHandler st).1 st.buttonLabel true =
        ⟨[], st.buttonLabel, false, Scripts.successMessage,
          "signup-message ".data ++ "success".data⟩) := by
  have h2 : Scripts.isValidEmail (jsTrim st.inputValue) = true := h
  constructor
  · simp [Js.submitHandler, h, Js.submitComplete, showMessage]
  · simp [Scripts.submitHandler, h2, Scripts.submitComplete, showMessage]

/-- Claim C2, instantiated at a state holding "user@example.com". -/
theorem claim_C2_witness :
    (Js.submitHandler exampleValidState).1.buttonDisabled = true ∧
    Js.submitComplete (Js.submitHandler exampleValidState).1
        exampleValidState.buttonLabel =
      ⟨[], exampleValidState.buttonLabel, false, Js.successMessage,
        "signup-message ".data ++ "success".data⟩ :=
  ⟨(claim_C2 exampleValidState (by decide)).1.2.1,
   (claim_C2 exampleValidState (by decide)).1.2.2.2⟩

/-- Claim C3: in the network variant, on a validated input the handler
issues the POST, and when the submission fails the completion shows the
generic retry message, restores the original label, re-enables the button
and leaves the input's value as it was. -/
theorem claim_C3 (st : FormState)
    (h : Scripts.isValidEmail (jsTrim st.inputValue) = true) :
    (Scripts.submitHandler st).2 =
      some (⟨Scripts.endpoint, jsTrim st.inputValue⟩, st.buttonLabel) ∧
    Scripts.submitComplete (Scripts.submitHandler st).1 st.buttonLabel false =
      ⟨st.inputValue, st.buttonLabel, false, Scripts.failureMessage,
        "signup-message ".data ++ "error".data⟩ := by
  constructor
  · simp [Scripts.submitHandler, h]
  · simp [Scripts.submitHandler, h, Scripts.submitComplete, showMessage]

/-- Claim C3, instantiated at a state holding "user@example.com". -/
theorem claim_C3_witness :
    Scripts.submitComplete (Scripts.submitHandler exampleValidState).1
        exampleValidState.buttonLabel false =
      ⟨exampleValidState.inputValue, exampleValidState.buttonLabel, false,
        Scripts.failureMessage, "signup-message ".data ++ "error".data⟩ :=
  (claim_C3 exampleValidState (by decide)).2

/-- Claim C4: on a trimmed value that fails validation, both variants'
handlers only show the inline error message: no submission is started, and
the input value, button label and disabled flag are all left unchanged. -/
theorem claim_C4 (st : FormState)
    (h : Js.isValidEmail (jsTrim st.inputValue) = false) :
    (Js.submitHandler st =
        (showMessage st Js.invalidMessage ("error".data), none) ∧
      (Js.submitHandler st).1.inputValue = st.inputValue ∧
      (Js.submitHandler st).1.buttonLabel = st.buttonLabel ∧
      (Js.submitHandler st).1.buttonDisabled = st.buttonDisabled) ∧
    (Scripts.submitHandler st =
        (showMessage st Scripts.invalidMessage ("error".data), none) ∧
      (Scripts.submitHandler st).1.inputValue = st.inputValue ∧
      (Scripts.submitHandler st).1.buttonLabel = st.buttonLabel ∧
      (Scripts.submitHandler st).1.buttonDisabled = st.buttonDisabled) := by
  have h2 : Scripts.isValidEmail (jsTrim st.inputValue) = false := h
  constructor
  · refine ⟨?_, ?_, ?_, ?_⟩ <;> simp [Js.submitHandler, h, showMessage]
  · refine ⟨?_, ?_, ?_, ?_⟩ <;> simp [Scripts.submitHandler, h2, showMessage]

/-- Claim C4, instantiated at a state holding "not-an-email". -/
theorem claim_C4_witness :
    Js.submitHandler exampleInvalidState =
      (showMessage exampleInvalidState Js.invalidMessage ("error".data), none) :=
  (claim_C4 exampleInvalidState (by decide)).1.1

/-- Claim C10: submission handling only depends on the trimmed field value.
Both handlers produce the same pending submission and the same state —
apart from the input field, which each branch simply leaves holding what
was typed — on a raw value and on its trimmed form; the network variant's
request body always carries the trimmed value; and the completions agree,
fully on success (where the field is cleared), and up to the retained typed
value on failure. -/
theorem claim_C10 (st : FormState) :
    ((Js.submitHandler st).2 = (Js.submitHandler (withTrimmedInput st)).2 ∧
      (Js.submitHandler st).1 =
        { (Js.submitHandler (withTrimmedInput st)).1 with
            inputValue := st.inputValue } ∧
      (Js.submitHandler st).1.inputValue = st.inputValue) ∧
    ((Scripts.submitHandler st).2 = (Scripts.submitHandler (withTrimmedInput st)).2 ∧
      (Scripts.submitHandler st).1 =
        { (Scripts.submitHandler (withTrimmedInput st)).1 with
            inputValue := st.inputValue } ∧
      (Scripts.submitHandler st).2 =
        (if Scripts.isValidEmail (jsTrim st.inputValue) = true then
          some (⟨Scripts.endpoint, jsTrim st.inputValue⟩, st.buttonLabel)
        else none)) ∧
    (∀ originalText : List Char,
      Scripts.submitComplete (Scripts.submitHandler st).1 originalText true =
        Scripts.submitComplete (Scripts.submitHandler (withTrimmedInput st)).1
          originalText true ∧
      Scripts.submitComplete (Scripts.submitHandler st).1 originalText false =
        { Scripts.submitComplete (Scripts.submitHandler (withTrimmedInput st)).1
            originalText false with
            inputValue := st.inputValue } ∧
      Js.submitComplete (Js.submitHandler st).1 originalText =
        Js.submitComplete (Js.submitHandler (withTrimmedInput st)).1
          originalText) := by
  have hid : jsTrim (jsTrim st.inputValue) = jsTrim st.inputValue :=
    jsTrim_idem st.inputValue
  cases h : Js.isValidEmail (jsTrim st.inputValue) with
  | false =>
      have h2 : Scripts.isValidEmail (jsTrim st.inputValue) = false := h
      refine ⟨⟨?_, ?_, ?_⟩, ⟨?_, ?_, ?_⟩, fun originalText => ⟨?_, ?_, ?_⟩⟩ <;>
        simp [Js.submitHandler, Scripts.submitHandler, withTrimmedInput,
          Js.submitComplete, Scripts.submitComplete, showMessage, hid, h, h2]
  | true =>
      have h2 : Scripts.isValidEmail (jsTrim st.inputValue) = true := h
      refine ⟨⟨?_, ?_, ?_⟩, ⟨?_, ?_, ?_⟩, fun originalText => ⟨?_, ?_, ?_⟩⟩ <;>
        simp [Js.submitHandler, Scripts.submitHandler, withTrimmedInput,
          Js.submitComplete, Scripts.submitComplete, showMessage, hid, h, h2]
